import Mathlib

/-!
Verification of the schema-catalog client
(`clients/client-python/gravitino/catalog/base_schema_catalog.py`).

The client's five operations (list, create, load, alter, drop) are embedded
as pure Lean functions.  Each operation takes the client value (`self`) and
returns a `CallResult`: the client value after the call, the Python-level
outcome (`Except PyErr α`, where `.error` stands for a raised exception),
and the trace of HTTP requests actually handed to the REST client, in order.
Collaborator types that live outside the excerpt (namespace/identifier
model, request/response DTOs and their `validate` contracts) are modelled
from the specification; each such definition is marked in its doc comment.
-/

set_option autoImplicit false

/-- Python-level failure outcomes. An `Except.error e` result of an operation
means the Python method raised exception `e` to its caller. -/
inductive PyErr where
  /-- Python `NameError`: evaluation of an unbound local variable name. -/
  | nameError (var : String)
  /-- Out-of-range access of a namespace level. -/
  | indexError
  /-- Failure of the namespace shape check (`Namespace.check_schema`). -/
  | invalidNamespace
  /-- Failure of the identifier shape check (`NameIdentifier.check_schema`). -/
  | invalidIdentifier
  /-- The `ValueError` raised by `to_schema_update_request` on a change value
  outside the closed variant set: "Unknown change type: {type name}". -/
  | unsupportedChangeType (type_name : String)
  /-- Local validation failure of an outgoing request object. -/
  | invalidRequest (msg : String)
  /-- Structural (protocol-level) validation failure of a server response. -/
  | validationError
  /-- Server-signaled domain error surfaced by response validation
  (NoSuchCatalog, NoSuchSchema, SchemaAlreadyExists, NonEmptySchema, ...). -/
  | domainError (error_name : String)
  /-- Transport-level failure raised by the REST client itself. -/
  | transportError (msg : String)
  deriving DecidableEq, Repr

/-- Modelled from the spec: a `Namespace` is an ordered sequence of string
levels (e.g. metalake, catalog); immutable; used only to compute request
paths. (`gravitino.namespace.Namespace` is not under `src/`.) -/
structure Nspace where
  levels : List String
  deriving DecidableEq, Repr

/-- Modelled from the spec: `Namespace.of` builds a namespace from the given
levels; the client constructor calls it with exactly two. -/
def Nspace.of (l0 l1 : String) : Nspace := ⟨[l0, l1]⟩

/-- Modelled from the spec: `Namespace.level(pos)` returns the level at the
given position of the ordered sequence; out of range is a local error. -/
def Nspace.level (ns : Nspace) (pos : Nat) : Except PyErr String :=
  match ns.levels.get? pos with
  | some l => .ok l
  | none => .error .indexError

/-- Modelled from the spec: `Namespace.check_schema` enforces the invariant
that a schema namespace has exactly 2 levels (metalake, catalog), and the
caller "fails with `InvalidNamespace` otherwise". -/
def Nspace.check_schema (ns : Nspace) : Except PyErr Unit :=
  if ns.levels.length = 2 then .ok () else .error .invalidNamespace

/-- Modelled from the spec: a `NameIdentifier` is a namespace plus a leaf
name, denoting a specific resource.
(`gravitino.name_identifier.NameIdentifier` is not under `src/`.) -/
structure NameIdentifier where
  nspace : Nspace
  name : String
  deriving DecidableEq, Repr

/-- Modelled from the spec: the string form of an identifier is its dot-joined
namespace levels followed by the leaf name, as in the spec's end-to-end
scenario where the server's identifiers print as "m.c.s1", "m.c.s2". -/
def NameIdentifier.str (ident : NameIdentifier) : String :=
  if ident.nspace.levels.isEmpty then ident.name
  else String.intercalate "." ident.nspace.levels ++ "." ++ ident.name

/-- Modelled from the spec: `NameIdentifier.check_schema` is the
schema-identifier shape check (the identifier's namespace must be a valid
2-level namespace); the caller "fails with `InvalidIdentifier` if not". -/
def NameIdentifier.check_schema (ident : NameIdentifier) : Except PyErr Unit :=
  if ident.nspace.levels.length = 2 then .ok () else .error .invalidIdentifier

/-- Modelled from the spec: audit metadata (creator, timestamps) carried by a
schema payload; opaque to the client. -/
structure AuditDTO where
  creator : String
  create_time : String
  deriving DecidableEq, Repr

/-- Modelled from the spec: a `Schema` is a name, an optional comment, a
mapping of string properties, and audit metadata. -/
structure Schema where
  name : String
  comment : Option String
  properties : List (String × String)
  audit : AuditDTO
  deriving DecidableEq, Repr

/-- The create-request body built by `create_schema` from its three inputs. -/
structure SchemaCreateRequest where
  name : String
  comment : Option String
  properties : List (String × String)
  deriving DecidableEq, Repr

/-- Modelled from the spec: the create request "validates it locally (e.g.,
name non-empty — validation contract owned by the request type)". -/
def SchemaCreateRequest.validate (req : SchemaCreateRequest) : Except PyErr Unit :=
  if req.name = "" then .error (.invalidRequest "schema name must be non-empty") else .ok ()

/-- The wire-level update request variants produced by
`to_schema_update_request` (base_schema_catalog.py:197-205). -/
inductive SchemaUpdateRequest where
  | SetSchemaPropertyRequest (property value : String)
  | RemoveSchemaPropertyRequest (property : String)
  deriving DecidableEq, Repr

/-- The update-list envelope PUT by `alter_schema`. -/
structure SchemaUpdatesRequest where
  updates : List SchemaUpdateRequest
  deriving DecidableEq, Repr

/-- Modelled from the spec: the update-list envelope's validation checks its
(already well-typed) member requests; an empty update list is valid — the
spec requires that an empty change sequence still issues the PUT. -/
def SchemaUpdatesRequest.validate (_req : SchemaUpdatesRequest) : Except PyErr Unit :=
  .ok ()

/-- Modelled from the spec: `SchemaChange` is a closed set of variants —
`SetProperty(key, value)` and `RemoveProperty(key)`. The extra constructor
`otherVariant` stands for a runtime value of any other variant reaching the
dispatcher, which Python's open class hierarchy cannot rule out; it carries
the Python type name used in the error message. -/
inductive SchemaChange where
  | SetProperty (property value : String)
  | RemoveProperty (property : String)
  | otherVariant (type_name : String)
  deriving DecidableEq, Repr

/-- HTTP requests as handed to the REST client: verb, path, and (where the
source passes one) typed body or query parameters. -/
inductive HttpRequest where
  | get (path : String)
  | post (path : String) (body : SchemaCreateRequest)
  | put (path : String) (body : SchemaUpdatesRequest)
  | delete (path : String) (params : List (String × String))
  deriving DecidableEq, Repr

/-- The path component of a request, whichever verb it uses. -/
def HttpRequest.path : HttpRequest → String
  | .get p => p
  | .post p _ => p
  | .put p _ => p
  | .delete p _ => p

/-- Modelled from the spec: the payload a response body parses to, per
response envelope kind. `errorBody` is a well-formed body signaling a domain
error (caught by `validate`); `malformed` is a body that fails structural
validation. -/
inductive RespBody where
  | entityList (identifiers : List NameIdentifier)
  | schemaBody (schema : Schema)
  | dropBody (dropped : Bool)
  | errorBody (error_name : String)
  | malformed
  deriving DecidableEq, Repr

/-- The transport: maps each issued request to either a response body or a
raised transport exception. Supplied externally; the client never inspects
it beyond calling it once per operation. -/
abbrev Transport := HttpRequest → Except PyErr RespBody

/-- Modelled from the spec: `EntityListResponse.from_json` + `validate` —
parses a list-of-identifiers response and validates it; a domain error in the
body surfaces as the named error, anything else malformed is a protocol
error. -/
def EntityListResponse.parse_validate : RespBody → Except PyErr (List NameIdentifier)
  | .entityList ids => .ok ids
  | .errorBody e => .error (.domainError e)
  | _ => .error .validationError

/-- Modelled from the spec: `SchemaResponse.from_json` + `validate` for a
single-schema response. -/
def SchemaResponse.parse_validate : RespBody → Except PyErr Schema
  | .schemaBody s => .ok s
  | .errorBody e => .error (.domainError e)
  | _ => .error .validationError

/-- Modelled from the spec: `DropResponse.from_json` + `validate` for a drop
response with its boolean "dropped" field. -/
def DropResponse.parse_validate : RespBody → Except PyErr Bool
  | .dropBody b => .ok b
  | .errorBody e => .error (.domainError e)
  | _ => .error .validationError

/-- Python `str()` of a boolean, used for the `cascade` query parameter. -/
def pyBoolStr : Bool → String
  | true => "True"
  | false => "False"

/-- The client (base_schema_catalog.py:28-59): the CatalogDTO fields set by
`super().__init__`, the bound namespace, the derived schema namespace, and
the REST client handle. `nspace` renders the Python field `namespace`
(a Lean keyword). -/
structure BaseSchemaCatalog where
  name : Option String
  provider : Option String
  comment : Option String
  properties : Option (List (String × String))
  audit : Option AuditDTO
  nspace : Nspace
  schema_namespace : Nspace
  rest_client : Transport

/-- `__init__` (base_schema_catalog.py:38-59): stores the namespace, derives
`schema_namespace = Namespace.of(namespace.level(0), name)`, and stores the
REST client. -/
def BaseSchemaCatalog.init (ns : Nspace) (name : String) (provider comment : Option String)
    (properties : Option (List (String × String))) (audit : Option AuditDTO)
    (rest_client : Transport) : Except PyErr BaseSchemaCatalog :=
  match ns.level 0 with
  | .error e => .error e
  | .ok l0 =>
    .ok { name := some name, provider := provider, comment := comment,
          properties := properties, audit := audit, nspace := ns,
          schema_namespace := Nspace.of l0 name, rest_client := rest_client }

/-- The outcome of one method call: the client value after the call, the
Python result (or raised exception), and the HTTP requests issued. -/
structure CallResult (α : Type) where
  self : BaseSchemaCatalog
  result : Except PyErr α
  trace : List HttpRequest

/-- `format_schema_request_path` (base_schema_catalog.py:193-195):
`"api/metalakes/" + ns.level(0) + "/catalogs/" + ns.level(1) + "/schemas"`. -/
def BaseSchemaCatalog.format_schema_request_path (ns : Nspace) : Except PyErr String :=
  match ns.level 0 with
  | .error e => .error e
  | .ok l0 =>
    match ns.level 1 with
    | .error e => .error e
    | .ok l1 => .ok ("api/metalakes/" ++ l0 ++ "/catalogs/" ++ l1 ++ "/schemas")

/-- `to_schema_update_request` (base_schema_catalog.py:197-205): dispatch on
the change variant; a value outside the closed set raises
`ValueError("Unknown change type: ...")`. -/
def BaseSchemaCatalog.to_schema_update_request : SchemaChange → Except PyErr SchemaUpdateRequest
  | .SetProperty k v => .ok (.SetSchemaPropertyRequest k v)
  | .RemoveProperty k => .ok (.RemoveSchemaPropertyRequest k)
  | .otherVariant tn => .error (.unsupportedChangeType tn)

/-- The list comprehension of alter_schema (base_schema_catalog.py:149-151):
maps `to_schema_update_request` over the changes in order, propagating the
first raised exception. -/
def BaseSchemaCatalog.mapChanges : List SchemaChange → Except PyErr (List SchemaUpdateRequest)
  | [] => .ok []
  | c :: rest =>
    match BaseSchemaCatalog.to_schema_update_request c with
    | .error e => .error e
    | .ok r =>
      match BaseSchemaCatalog.mapChanges rest with
      | .error e => .error e
      | .ok rs => .ok (r :: rs)

/-- `list_schemas` (base_schema_catalog.py:64-81): check the schema
namespace, GET the base path, parse and validate an entity-list response,
and return `str(identifier)` for each identifier in order. -/
def BaseSchemaCatalog.list_schemas (self : BaseSchemaCatalog) : CallResult (List String) :=
  match Nspace.check_schema self.schema_namespace with
  | .error e => ⟨self, .error e, []⟩
  | .ok _ =>
    match BaseSchemaCatalog.format_schema_request_path self.schema_namespace with
    | .error e => ⟨self, .error e, []⟩
    | .ok path =>
      match self.rest_client (HttpRequest.get path) with
      | .error e => ⟨self, .error e, [HttpRequest.get path]⟩
      | .ok body =>
        match EntityListResponse.parse_validate body with
        | .error e => ⟨self, .error e, [HttpRequest.get path]⟩
        | .ok ids => ⟨self, .ok (ids.map NameIdentifier.str), [HttpRequest.get path]⟩

/-- `create_schema` (base_schema_catalog.py:83-112): build and validate the
create request, POST it to the base path, parse and validate a single-schema
response, return the contained schema. -/
def BaseSchemaCatalog.create_schema (self : BaseSchemaCatalog) (schema_name : String)
    (comment : Option String) (properties : List (String × String)) : CallResult Schema :=
  match SchemaCreateRequest.validate ⟨schema_name, comment, properties⟩ with
  | .error e => ⟨self, .error e, []⟩
  | .ok _ =>
    match BaseSchemaCatalog.format_schema_request_path self.schema_namespace with
    | .error e => ⟨self, .error e, []⟩
    | .ok path =>
      match self.rest_client (HttpRequest.post path ⟨schema_name, comment, properties⟩) with
      | .error e => ⟨self, .error e, [HttpRequest.post path ⟨schema_name, comment, properties⟩]⟩
      | .ok body =>
        match SchemaResponse.parse_validate body with
        | .error e => ⟨self, .error e, [HttpRequest.post path ⟨schema_name, comment, properties⟩]⟩
        | .ok s => ⟨self, .ok s, [HttpRequest.post path ⟨schema_name, comment, properties⟩]⟩

/-- `load_schema` (base_schema_catalog.py:114-134): GET the per-schema path
(no local precondition check of any kind), parse and validate a
single-schema response, return the schema. -/
def BaseSchemaCatalog.load_schema (self : BaseSchemaCatalog) (schema_name : String) :
    CallResult Schema :=
  match BaseSchemaCatalog.format_schema_request_path self.schema_namespace with
  | .error e => ⟨self, .error e, []⟩
  | .ok base =>
    match self.rest_client (HttpRequest.get (base ++ "/" ++ schema_name)) with
    | .error e => ⟨self, .error e, [HttpRequest.get (base ++ "/" ++ schema_name)]⟩
    | .ok body =>
      match SchemaResponse.parse_validate body with
      | .error e => ⟨self, .error e, [HttpRequest.get (base ++ "/" ++ schema_name)]⟩
      | .ok s => ⟨self, .ok s, [HttpRequest.get (base ++ "/" ++ schema_name)]⟩

/-- `alter_schema` (base_schema_catalog.py:136-162): map the changes to
update requests, wrap and validate the update-list envelope, PUT it to the
per-schema path, parse and validate a single-schema response. -/
def BaseSchemaCatalog.alter_schema (self : BaseSchemaCatalog) (schema_name : String)
    (changes : List SchemaChange) : CallResult Schema :=
  match BaseSchemaCatalog.mapChanges changes with
  | .error e => ⟨self, .error e, []⟩
  | .ok reqs =>
    match SchemaUpdatesRequest.validate ⟨reqs⟩ with
    | .error e => ⟨self, .error e, []⟩
    | .ok _ =>
      match BaseSchemaCatalog.format_schema_request_path self.schema_namespace with
      | .error e => ⟨self, .error e, []⟩
      | .ok base =>
        match self.rest_client (HttpRequest.put (base ++ "/" ++ schema_name) ⟨reqs⟩) with
        | .error e => ⟨self, .error e, [HttpRequest.put (base ++ "/" ++ schema_name) ⟨reqs⟩]⟩
        | .ok body =>
          match SchemaResponse.parse_validate body with
          | .error e => ⟨self, .error e, [HttpRequest.put (base ++ "/" ++ schema_name) ⟨reqs⟩]⟩
          | .ok s => ⟨self, .ok s, [HttpRequest.put (base ++ "/" ++ schema_name) ⟨reqs⟩]⟩

/-- The local variable `ident` read at base_schema_catalog.py:177 (and again
in the handler at line 190). No statement of `drop_schema` ever assigns it,
so evaluating it raises `NameError`. -/
def dropSchemaIdentLocal : Except PyErr NameIdentifier :=
  .error (.nameError "ident")

/-- The `try` block of `drop_schema` (base_schema_catalog.py:178-191): DELETE
the per-schema path with the `cascade` query parameter, parse and validate a
drop response, and return its dropped flag; any exception inside the block
is caught by `except Exception`, logged (using `ident`, bound here as a
parameter), and collapsed to `False`. -/
def BaseSchemaCatalog.drop_schema_try (self : BaseSchemaCatalog) (ident : NameIdentifier)
    (schema_name : String) (cascade : Bool) : CallResult Bool :=
  let _ := ident
  match BaseSchemaCatalog.format_schema_request_path self.schema_namespace with
  | .error _ => ⟨self, .ok false, []⟩
  | .ok base =>
    match self.rest_client
        (HttpRequest.delete (base ++ "/" ++ schema_name) [("cascade", pyBoolStr cascade)]) with
    | .error _ =>
      ⟨self, .ok false,
        [HttpRequest.delete (base ++ "/" ++ schema_name) [("cascade", pyBoolStr cascade)]]⟩
    | .ok body =>
      match DropResponse.parse_validate body with
      | .error _ =>
        ⟨self, .ok false,
          [HttpRequest.delete (base ++ "/" ++ schema_name) [("cascade", pyBoolStr cascade)]]⟩
      | .ok dropped =>
        ⟨self, .ok dropped,
          [HttpRequest.delete (base ++ "/" ++ schema_name) [("cascade", pyBoolStr cascade)]]⟩

/-- `drop_schema` (base_schema_catalog.py:164-191): line 177 first evaluates
the unbound local `ident` (raising `NameError` outside the `try` block),
would then apply `NameIdentifier.check_schema` to it, and only then enter
the `try` block. -/
def BaseSchemaCatalog.drop_schema (self : BaseSchemaCatalog) (schema_name : String)
    (cascade : Bool) : CallResult Bool :=
  match dropSchemaIdentLocal with
  | .error e => ⟨self, .error e, []⟩
  | .ok ident =>
    match NameIdentifier.check_schema ident with
    | .error e => ⟨self, .error e, []⟩
    | .ok _ => self.drop_schema_try ident schema_name cascade

/-! Concrete fixtures used by the closed theorems and witnesses. -/

/-- A transport whose server answers the list GET with the identifiers of
the spec's end-to-end scenario, "m.c.s1" and "m.c.s2". -/
def listDemoTransport : Transport := fun r =>
  match r with
  | .get _ => .ok (RespBody.entityList [⟨⟨["m", "c"]⟩, "s1"⟩, ⟨⟨["m", "c"]⟩, "s2"⟩])
  | _ => .error (.transportError "unexpected request")

/-- A client bound to metalake "m", catalog "c", wired to
`listDemoTransport`. -/
def demoClient : BaseSchemaCatalog :=
  { name := some "c", provider := none, comment := none, properties := none,
    audit := none, nspace := ⟨["m"]⟩, schema_namespace := ⟨["m", "c"]⟩,
    rest_client := listDemoTransport }

/-- A client whose schema namespace has only one level. -/
def demoBadClient : BaseSchemaCatalog :=
  { demoClient with schema_namespace := ⟨["m"]⟩ }

/-- A schema identifier for "m"."c"."s1". -/
def demoIdent : NameIdentifier := ⟨⟨["m", "c"]⟩, "s1"⟩

/-- C1: every call `drop_schema(schema_name, cascade)` evaluates the unbound
local `ident` at line 177, before the `try` block, and therefore raises
`NameError` and issues no request — it never reaches the swallow-and-return-
`false` path, contradicting the claim that failures are caught and `false`
is returned. -/
theorem drop_schema_always_raises_unbound_ident (self : BaseSchemaCatalog)
    (schema_name : String) (cascade : Bool) :
    (self.drop_schema schema_name cascade).result = .error (.nameError "ident")
    ∧ (self.drop_schema schema_name cascade).trace = [] :=
  ⟨rfl, rfl⟩

/-- C2: against the spec's scenario server (identifiers "m.c.s1", "m.c.s2"),
`list_schemas` returns `str(identifier)` for each identifier — the full
dotted identifier strings `["m.c.s1", "m.c.s2"]`, not the leaf names
`["s1", "s2"]` the claim and the method's own docstring promise. -/
theorem list_schemas_returns_dotted_identifier_strings :
    demoClient.list_schemas.result = .ok ["m.c.s1", "m.c.s2"]
    ∧ demoClient.list_schemas.trace = [HttpRequest.get "api/metalakes/m/catalogs/c/schemas"]
    ∧ (["m.c.s1", "m.c.s2"] : List String) ≠ ["s1", "s2"] := by
  refine ⟨rfl, rfl, by decide⟩

/-- C3: `drop_schema` never performs the schema-identifier shape check: the
target identifier is never constructed from `schema_name`, and the call
(here on an empty schema name) fails with `NameError` for the unbound local
`ident` — not with `InvalidIdentifier` — before any request is sent. -/
theorem drop_schema_identifier_check_unreachable :
    (demoClient.drop_schema "" false).result = .error (.nameError "ident")
    ∧ (demoClient.drop_schema "" false).result ≠ .error .invalidIdentifier
    ∧ (demoClient.drop_schema "" false).trace = [] := by
  refine ⟨rfl, ?_, rfl⟩
  intro h
  rw [(drop_schema_always_raises_unbound_ident demoClient "" false).1] at h
  exact absurd (Except.error.inj h) (by decide)

/-- Helper: on a 2-level namespace, path formatting yields the base path. -/
theorem format_path_cons (l0 l1 : String) :
    BaseSchemaCatalog.format_schema_request_path ⟨[l0, l1]⟩ =
      .ok ("api/metalakes/" ++ l0 ++ "/catalogs/" ++ l1 ++ "/schemas") := rfl

/-- Helper: the change-mapping comprehension raises `UnsupportedChangeType`
whenever the change list contains a value outside the closed variant set. -/
theorem mapChanges_other_mem (pre : List SchemaChange) (tn : String) (post : List SchemaChange) :
    ∃ s, BaseSchemaCatalog.mapChanges (pre ++ SchemaChange.otherVariant tn :: post) =
      .error (.unsupportedChangeType s) := by
  induction pre with
  | nil => exact ⟨tn, rfl⟩
  | cons c rest ih =>
    obtain ⟨s, hs⟩ := ih
    cases c with
    | SetProperty k v =>
      exact ⟨s, by simp only [List.cons_append, BaseSchemaCatalog.mapChanges,
        BaseSchemaCatalog.to_schema_update_request, List.append_eq, hs]⟩
    | RemoveProperty k =>
      exact ⟨s, by simp only [List.cons_append, BaseSchemaCatalog.mapChanges,
        BaseSchemaCatalog.to_schema_update_request, List.append_eq, hs]⟩
    | otherVariant tn' => exact ⟨tn', rfl⟩

/-- C4: `to_schema_update_request` maps `SetProperty(k, v)` to
`SetSchemaPropertyRequest(k, v)` and `RemoveProperty(k)` to
`RemoveSchemaPropertyRequest(k)`; the comprehension in `alter_schema`
applies it elementwise preserving order (cons laws), and for a change value
of any other variant `alter_schema` raises `UnsupportedChangeType` with no
request issued — no change is silently dropped. -/
theorem to_schema_update_request_exhaustive_mapping :
    (∀ k v, BaseSchemaCatalog.to_schema_update_request (.SetProperty k v) =
      .ok (.SetSchemaPropertyRequest k v))
    ∧ (∀ k, BaseSchemaCatalog.to_schema_update_request (.RemoveProperty k) =
      .ok (.RemoveSchemaPropertyRequest k))
    ∧ (∀ k v rest, BaseSchemaCatalog.mapChanges (.SetProperty k v :: rest) =
        (BaseSchemaCatalog.mapChanges rest).map (fun rs => .SetSchemaPropertyRequest k v :: rs))
    ∧ (∀ k rest, BaseSchemaCatalog.mapChanges (.RemoveProperty k :: rest) =
        (BaseSchemaCatalog.mapChanges rest).map (fun rs => .RemoveSchemaPropertyRequest k :: rs))
    ∧ (∀ (self : BaseSchemaCatalog) (schema_name : String)
          (pre : List SchemaChange) (tn : String) (post : List SchemaChange),
        (self.alter_schema schema_name (pre ++ SchemaChange.otherVariant tn :: post)).trace = []
        ∧ ∃ s, (self.alter_schema schema_name (pre ++ SchemaChange.otherVariant tn :: post)).result =
            .error (.unsupportedChangeType s)) := by
  refine ⟨fun k v => rfl, fun k => rfl, ?_, ?_, ?_⟩
  · intro k v rest
    rcases h : BaseSchemaCatalog.mapChanges rest with e | rs <;>
      simp only [BaseSchemaCatalog.mapChanges,
        BaseSchemaCatalog.to_schema_update_request, h, Except.map]
  · intro k rest
    rcases h : BaseSchemaCatalog.mapChanges rest with e | rs <;>
      simp only [BaseSchemaCatalog.mapChanges,
        BaseSchemaCatalog.to_schema_update_request, h, Except.map]
  · intro self schema_name pre tn post
    obtain ⟨s, hs⟩ := mapChanges_other_mem pre tn post
    constructor
    · simp only [BaseSchemaCatalog.alter_schema, hs]
    · exact ⟨s, by simp only [BaseSchemaCatalog.alter_schema, hs]⟩

/-- C5: when the bound schema namespace does not have exactly 2 levels,
`list_schemas` fails with `InvalidNamespace` (the shape check at line 73)
and issues no network call. -/
theorem list_schemas_invalid_namespace_no_request (self : BaseSchemaCatalog)
    (h : self.schema_namespace.levels.length ≠ 2) :
    self.list_schemas.result = .error .invalidNamespace
    ∧ self.list_schemas.trace = [] := by
  constructor <;>
    simp only [BaseSchemaCatalog.list_schemas, Nspace.check_schema, if_neg h]

/-- Witness for C5 at a client whose schema namespace has a single level. -/
theorem list_schemas_invalid_namespace_no_request_witness :
    demoBadClient.list_schemas.result = .error .invalidNamespace
    ∧ demoBadClient.list_schemas.trace = [] :=
  list_schemas_invalid_namespace_no_request demoBadClient (by decide)

/-- Helper: `load_schema` issues exactly one GET, at `base ++ "/" ++ name`. -/
theorem load_schema_trace (self : BaseSchemaCatalog) (schema_name base : String)
    (h : BaseSchemaCatalog.format_schema_request_path self.schema_namespace = .ok base) :
    (self.load_schema schema_name).trace = [HttpRequest.get (base ++ "/" ++ schema_name)] := by
  rcases ht : self.rest_client (HttpRequest.get (base ++ "/" ++ schema_name)) with e | body
  · simp only [BaseSchemaCatalog.load_schema, h, ht]
  · rcases hp : SchemaResponse.parse_validate body with e | s <;>
      simp only [BaseSchemaCatalog.load_schema, h, ht, hp]

/-- Helper: every request issued by `alter_schema` targets the per-schema
path `base ++ "/" ++ name`. -/
theorem alter_schema_trace_paths (self : BaseSchemaCatalog) (schema_name base : String)
    (changes : List SchemaChange) (r : HttpRequest)
    (h : BaseSchemaCatalog.format_schema_request_path self.schema_namespace = .ok base)
    (hr : r ∈ (self.alter_schema schema_name changes).trace) :
    r.path = base ++ "/" ++ schema_name := by
  rcases hm : BaseSchemaCatalog.mapChanges changes with e | reqs
  · simp only [BaseSchemaCatalog.alter_schema, hm] at hr
    exact absurd hr (List.not_mem_nil r)
  · simp only [BaseSchemaCatalog.alter_schema, hm, SchemaUpdatesRequest.validate, h] at hr
    rcases ht : self.rest_client (HttpRequest.put (base ++ "/" ++ schema_name) ⟨reqs⟩) with e | body
    · simp only [ht, List.mem_singleton] at hr
      rw [hr]; rfl
    · rcases hp : SchemaResponse.parse_validate body with e | s <;>
        simp only [ht, hp, List.mem_singleton] at hr <;> (rw [hr]; rfl)

/-- Helper: the `try` block of `drop_schema` issues exactly one DELETE, at
`base ++ "/" ++ name`, carrying the cascade query parameter. -/
theorem drop_schema_try_trace (self : BaseSchemaCatalog) (ident : NameIdentifier)
    (schema_name base : String) (cascade : Bool)
    (h : BaseSchemaCatalog.format_schema_request_path self.schema_namespace = .ok base) :
    (self.drop_schema_try ident schema_name cascade).trace =
      [HttpRequest.delete (base ++ "/" ++ schema_name) [("cascade", pyBoolStr cascade)]] := by
  rcases ht : self.rest_client
      (HttpRequest.delete (base ++ "/" ++ schema_name) [("cascade", pyBoolStr cascade)]) with e | body
  · simp only [BaseSchemaCatalog.drop_schema_try, h, ht]
  · rcases hp : DropResponse.parse_validate body with e | b <;>
      simp only [BaseSchemaCatalog.drop_schema_try, h, ht, hp]

/-- C6: on a 2-level namespace, `format_schema_request_path` produces exactly
`api/metalakes/` ++ level0 ++ `/catalogs/` ++ level1 ++ `/schemas`, and the
requests of `load_schema`, `alter_schema` and the `drop_schema` `try` block
all target that base path concatenated with `/` and the schema name. -/
theorem schema_request_path_construction :
    (∀ l0 l1, BaseSchemaCatalog.format_schema_request_path ⟨[l0, l1]⟩ =
      .ok ("api/metalakes/" ++ l0 ++ "/catalogs/" ++ l1 ++ "/schemas"))
    ∧ (∀ (self : BaseSchemaCatalog) (l0 l1 schema_name : String),
        self.schema_namespace = ⟨[l0, l1]⟩ →
        (self.load_schema schema_name).trace =
          [HttpRequest.get
            ("api/metalakes/" ++ l0 ++ "/catalogs/" ++ l1 ++ "/schemas" ++ "/" ++ schema_name)])
    ∧ (∀ (self : BaseSchemaCatalog) (l0 l1 schema_name : String)
          (changes : List SchemaChange) (r : HttpRequest),
        self.schema_namespace = ⟨[l0, l1]⟩ →
        r ∈ (self.alter_schema schema_name changes).trace →
        r.path = "api/metalakes/" ++ l0 ++ "/catalogs/" ++ l1 ++ "/schemas" ++ "/" ++ schema_name)
    ∧ (∀ (self : BaseSchemaCatalog) (ident : NameIdentifier)
          (l0 l1 schema_name : String) (cascade : Bool),
        self.schema_namespace = ⟨[l0, l1]⟩ →
        (self.drop_schema_try ident schema_name cascade).trace =
          [HttpRequest.delete
            ("api/metalakes/" ++ l0 ++ "/catalogs/" ++ l1 ++ "/schemas" ++ "/" ++ schema_name)
            [("cascade", pyBoolStr cascade)]]) := by
  refine ⟨fun l0 l1 => rfl, ?_, ?_, ?_⟩
  · intro self l0 l1 schema_name h
    have hb : BaseSchemaCatalog.format_schema_request_path self.schema_namespace =
        .ok ("api/metalakes/" ++ l0 ++ "/catalogs/" ++ l1 ++ "/schemas") := by
      rw [h]; rfl
    have := load_schema_trace self schema_name _ hb
    simpa [String.append_assoc] using this
  · intro self l0 l1 schema_name changes r h hr
    have hb : BaseSchemaCatalog.format_schema_request_path self.schema_namespace =
        .ok ("api/metalakes/" ++ l0 ++ "/catalogs/" ++ l1 ++ "/schemas") := by
      rw [h]; rfl
    have := alter_schema_trace_paths self schema_name _ changes r hb hr
    simpa [String.append_assoc] using this
  · intro self ident l0 l1 schema_name cascade h
    have hb : BaseSchemaCatalog.format_schema_request_path self.schema_namespace =
        .ok ("api/metalakes/" ++ l0 ++ "/catalogs/" ++ l1 ++ "/schemas") := by
      rw [h]; rfl
    have := drop_schema_try_trace self ident schema_name _ cascade hb
    simpa [String.append_assoc] using this

/-- Witness for C6 at the demo client (metalake "m", catalog "c"),
schema name "s1". -/
theorem schema_request_path_construction_witness :
    (demoClient.load_schema "s1").trace =
      [HttpRequest.get
        ("api/metalakes/" ++ "m" ++ "/catalogs/" ++ "c" ++ "/schemas" ++ "/" ++ "s1")]
    ∧ HttpRequest.path
        (HttpRequest.put
          ("api/metalakes/" ++ "m" ++ "/catalogs/" ++ "c" ++ "/schemas" ++ "/" ++ "s1") ⟨[]⟩) =
        "api/metalakes/" ++ "m" ++ "/catalogs/" ++ "c" ++ "/schemas" ++ "/" ++ "s1"
    ∧ (demoClient.drop_schema_try demoIdent "s1" false).trace =
        [HttpRequest.delete
          ("api/metalakes/" ++ "m" ++ "/catalogs/" ++ "c" ++ "/schemas" ++ "/" ++ "s1")
          [("cascade", pyBoolStr false)]] :=
  ⟨schema_request_path_construction.2.1 demoClient "m" "c" "s1" rfl,
   schema_request_path_construction.2.2.1 demoClient "m" "c" "s1" [] _ rfl (by decide),
   schema_request_path_construction.2.2.2 demoClient demoIdent "m" "c" "s1" false rfl⟩

/-- C7: `alter_schema` with an empty change sequence does not short-circuit:
it still issues exactly one PUT to the per-schema path whose body is the
update-list envelope containing the empty list of update requests. -/
theorem alter_schema_empty_changes_puts_empty_list (self : BaseSchemaCatalog)
    (l0 l1 schema_name : String) (h : self.schema_namespace = ⟨[l0, l1]⟩) :
    (self.alter_schema schema_name []).trace =
      [HttpRequest.put
        ("api/metalakes/" ++ l0 ++ "/catalogs/" ++ l1 ++ "/schemas" ++ "/" ++ schema_name)
        (SchemaUpdatesRequest.mk [])] := by
  have hb : BaseSchemaCatalog.format_schema_request_path self.schema_namespace =
      .ok ("api/metalakes/" ++ l0 ++ "/catalogs/" ++ l1 ++ "/schemas") := by
    rw [h]; rfl
  rcases ht : self.rest_client
      (HttpRequest.put
        ("api/metalakes/" ++ l0 ++ "/catalogs/" ++ l1 ++ "/schemas" ++ "/" ++ schema_name)
        (SchemaUpdatesRequest.mk [])) with e | body
  · simp only [BaseSchemaCatalog.alter_schema, BaseSchemaCatalog.mapChanges,
      SchemaUpdatesRequest.validate, hb, ht]
  · rcases hp : SchemaResponse.parse_validate body with e | s <;>
      simp only [BaseSchemaCatalog.alter_schema, BaseSchemaCatalog.mapChanges,
        SchemaUpdatesRequest.validate, hb, ht, hp]

/-- Witness for C7 at the demo client and schema name "s1". -/
theorem alter_schema_empty_changes_puts_empty_list_witness :
    (demoClient.alter_schema "s1" []).trace =
      [HttpRequest.put
        ("api/metalakes/" ++ "m" ++ "/catalogs/" ++ "c" ++ "/schemas" ++ "/" ++ "s1")
        (SchemaUpdatesRequest.mk [])] :=
  alter_schema_empty_changes_puts_empty_list demoClient "m" "c" "s1" rfl

/-- A transport whose server answers the create POST with the single-schema
payload of the spec's round-trip scenario, carrying the given audit data. -/
def createDemoTransport (a : AuditDTO) : Transport := fun r =>
  match r with
  | .post _ _ => .ok (RespBody.schemaBody ⟨"s1", some "c", [("k", "v")], a⟩)
  | _ => .error (.transportError "unexpected request")

/-- The demo client rewired to `createDemoTransport`. -/
def createDemoClient (a : AuditDTO) : BaseSchemaCatalog :=
  { demoClient with rest_client := createDemoTransport a }

/-- C8: round-trip — when the validated create response carries name "s1",
comment "c", properties k ↦ v and audit metadata `a`, then
`create_schema("s1", "c", ...)` returns a `Schema` whose fields are exactly
those payload fields, having POSTed the matching create request to the base
path. -/
theorem create_schema_round_trip (a : AuditDTO) :
    ((createDemoClient a).create_schema "s1" (some "c") [("k", "v")]).result =
      .ok ⟨"s1", some "c", [("k", "v")], a⟩
    ∧ ((createDemoClient a).create_schema "s1" (some "c") [("k", "v")]).trace =
      [HttpRequest.post "api/metalakes/m/catalogs/c/schemas" ⟨"s1", some "c", [("k", "v")]⟩] :=
  ⟨rfl, rfl⟩

/-- Helper: `list_schemas` returns the client value unchanged. -/
theorem list_schemas_self_eq (self : BaseSchemaCatalog) :
    self.list_schemas.self = self := by
  rcases hc : Nspace.check_schema self.schema_namespace with e | u
  · simp only [BaseSchemaCatalog.list_schemas, hc]
  · rcases hf : BaseSchemaCatalog.format_schema_request_path self.schema_namespace with e | path
    · simp only [BaseSchemaCatalog.list_schemas, hc, hf]
    · rcases ht : self.rest_client (HttpRequest.get path) with e | body
      · simp only [BaseSchemaCatalog.list_schemas, hc, hf, ht]
      · rcases hp : EntityListResponse.parse_validate body with e | ids <;>
          simp only [BaseSchemaCatalog.list_schemas, hc, hf, ht, hp]

/-- Helper: `create_schema` returns the client value unchanged. -/
theorem create_schema_self_eq (self : BaseSchemaCatalog) (schema_name : String)
    (comment : Option String) (properties : List (String × String)) :
    (self.create_schema schema_name comment properties).self = self := by
  rcases hv : SchemaCreateRequest.validate ⟨schema_name, comment, properties⟩ with e | u
  · simp only [BaseSchemaCatalog.create_schema, hv]
  · rcases hf : BaseSchemaCatalog.format_schema_request_path self.schema_namespace with e | path
    · simp only [BaseSchemaCatalog.create_schema, hv, hf]
    · rcases ht : self.rest_client
          (HttpRequest.post path ⟨schema_name, comment, properties⟩) with e | body
      · simp only [BaseSchemaCatalog.create_schema, hv, hf, ht]
      · rcases hp : SchemaResponse.parse_validate body with e | s <;>
          simp only [BaseSchemaCatalog.create_schema, hv, hf, ht, hp]

/-- Helper: `load_schema` returns the client value unchanged. -/
theorem load_schema_self_eq (self : BaseSchemaCatalog) (schema_name : String) :
    (self.load_schema schema_name).self = self := by
  rcases hf : BaseSchemaCatalog.format_schema_request_path self.schema_namespace with e | base
  · simp only [BaseSchemaCatalog.load_schema, hf]
  · rcases ht : self.rest_client (HttpRequest.get (base ++ "/" ++ schema_name)) with e | body
    · simp only [BaseSchemaCatalog.load_schema, hf, ht]
    · rcases hp : SchemaResponse.parse_validate body with e | s <;>
        simp only [BaseSchemaCatalog.load_schema, hf, ht, hp]

/-- Helper: `alter_schema` returns the client value unchanged. -/
theorem alter_schema_self_eq (self : BaseSchemaCatalog) (schema_name : String)
    (changes : List SchemaChange) :
    (self.alter_schema schema_name changes).self = self := by
  rcases hm : BaseSchemaCatalog.mapChanges changes with e | reqs
  · simp only [BaseSchemaCatalog.alter_schema, hm]
  · rcases hf : BaseSchemaCatalog.format_schema_request_path self.schema_namespace with e | base
    · simp only [BaseSchemaCatalog.alter_schema, hm, SchemaUpdatesRequest.validate, hf]
    · rcases ht : self.rest_client
          (HttpRequest.put (base ++ "/" ++ schema_name) ⟨reqs⟩) with e | body
      · simp only [BaseSchemaCatalog.alter_schema, hm, SchemaUpdatesRequest.validate, hf, ht]
      · rcases hp : SchemaResponse.parse_validate body with e | s <;>
          simp only [BaseSchemaCatalog.alter_schema, hm, SchemaUpdatesRequest.validate, hf, ht, hp]

/-- C9: none of the five operations mutates the client: whatever the inputs
and however the transport answers, the client value after the call — all of
its fixed configuration: CatalogDTO fields, bound namespace, derived schema
namespace, and transport handle — equals the client value before it. -/
theorem client_config_unchanged (self : BaseSchemaCatalog) :
    self.list_schemas.self = self
    ∧ (∀ schema_name comment properties,
        (self.create_schema schema_name comment properties).self = self)
    ∧ (∀ schema_name, (self.load_schema schema_name).self = self)
    ∧ (∀ schema_name changes, (self.alter_schema schema_name changes).self = self)
    ∧ (∀ schema_name cascade, (self.drop_schema schema_name cascade).self = self) :=
  ⟨list_schemas_self_eq self,
   fun n c p => create_schema_self_eq self n c p,
   fun n => load_schema_self_eq self n,
   fun n cs => alter_schema_self_eq self n cs,
   fun _ _ => rfl⟩

/-- Helper: a failed single-schema parse/validate yields either a protocol
validation error or a server-signaled domain error. -/
theorem schemaResponse_parse_errors (body : RespBody) (e : PyErr)
    (h : SchemaResponse.parse_validate body = .error e) :
    e = .validationError ∨ ∃ n, e = .domainError n := by
  cases body with
  | entityList ids => exact Or.inl (Except.error.inj h).symm
  | schemaBody s => exact Except.noConfusion h
  | dropBody b => exact Or.inl (Except.error.inj h).symm
  | errorBody n => exact Or.inr ⟨n, (Except.error.inj h).symm⟩
  | malformed => exact Or.inl (Except.error.inj h).symm

/-- Helper: every error raised by `load_schema` on a client whose path
formatting succeeds is the transport's own error or a response-validation
outcome. -/
theorem load_schema_error_origin (self : BaseSchemaCatalog) (schema_name base : String)
    (e : PyErr)
    (hb : BaseSchemaCatalog.format_schema_request_path self.schema_namespace = .ok base)
    (he : (self.load_schema schema_name).result = .error e) :
    self.rest_client (HttpRequest.get (base ++ "/" ++ schema_name)) = .error e
    ∨ e = .validationError ∨ ∃ n, e = .domainError n := by
  rcases ht : self.rest_client (HttpRequest.get (base ++ "/" ++ schema_name)) with e' | body
  · left
    simp only [BaseSchemaCatalog.load_schema, hb, ht, Except.error.injEq] at he
    rw [he]
  · right
    rcases hp : SchemaResponse.parse_validate body with e' | s
    · simp only [BaseSchemaCatalog.load_schema, hb, ht, hp, Except.error.injEq] at he
      exact he ▸ schemaResponse_parse_errors body e' hp
    · simp only [BaseSchemaCatalog.load_schema, hb, ht, hp] at he
      exact Except.noConfusion he

/-- C10: `load_schema` performs no local precondition check. The bound
schema namespace of every constructed client has exactly 2 levels; for any
such client and any schema name (the empty string included) `load_schema`
issues its GET unconditionally — in particular it never raises a local
`InvalidNamespace` or `InvalidIdentifier` — and every error it raises is
either the transport's own or comes from response validation. -/
theorem load_schema_no_local_precondition_check :
    (∀ ns name provider comment properties audit rest_client c,
      BaseSchemaCatalog.init ns name provider comment properties audit rest_client = .ok c →
      c.schema_namespace.levels.length = 2)
    ∧ (∀ (self : BaseSchemaCatalog) (l0 l1 schema_name : String),
        self.schema_namespace = ⟨[l0, l1]⟩ →
        (self.load_schema schema_name).trace =
          [HttpRequest.get
            ("api/metalakes/" ++ l0 ++ "/catalogs/" ++ l1 ++ "/schemas" ++ "/" ++ schema_name)]
        ∧ ∀ e, (self.load_schema schema_name).result = .error e →
            self.rest_client
              (HttpRequest.get
                ("api/metalakes/" ++ l0 ++ "/catalogs/" ++ l1 ++ "/schemas" ++ "/" ++ schema_name))
              = .error e
            ∨ e = .validationError ∨ ∃ n, e = .domainError n) := by
  constructor
  · intro ns name provider comment properties audit rc c h
    rcases hl : ns.level 0 with e | l0
    · simp only [BaseSchemaCatalog.init, hl] at h
      exact Except.noConfusion h
    · simp only [BaseSchemaCatalog.init, hl, Except.ok.injEq] at h
      rw [← h]
      rfl
  · intro self l0 l1 schema_name h
    have hb : BaseSchemaCatalog.format_schema_request_path self.schema_namespace =
        .ok ("api/metalakes/" ++ l0 ++ "/catalogs/" ++ l1 ++ "/schemas") := by
      rw [h]; rfl
    exact ⟨load_schema_trace self schema_name _ hb,
           fun e he => load_schema_error_origin self schema_name _ e hb he⟩

/-- Witness for C10: the demo client arises from `__init__` with a 2-level
schema namespace, and its `load_schema "s1"` issues exactly the expected
GET; its one failure there is the validation error of the mismatched
response body. -/
theorem load_schema_no_local_precondition_check_witness :
    demoClient.schema_namespace.levels.length = 2
    ∧ (demoClient.load_schema "s1").trace =
        [HttpRequest.get
          ("api/metalakes/" ++ "m" ++ "/catalogs/" ++ "c" ++ "/schemas" ++ "/" ++ "s1")]
    ∧ (demoClient.rest_client
          (HttpRequest.get
            ("api/metalakes/" ++ "m" ++ "/catalogs/" ++ "c" ++ "/schemas" ++ "/" ++ "s1"))
          = .error .validationError
        ∨ PyErr.validationError = .validationError
        ∨ ∃ n, PyErr.validationError = .domainError n) :=
  ⟨load_schema_no_local_precondition_check.1 ⟨["m"]⟩ "c" none none none none
      listDemoTransport demoClient rfl,
   (load_schema_no_local_precondition_check.2 demoClient "m" "c" "s1" rfl).1,
   (load_schema_no_local_precondition_check.2 demoClient "m" "c" "s1" rfl).2
      .validationError rfl⟩
